import Mathlib

/-!
Shallow embedding of the smart-outlet controller in src/src/main.rs.

The program has four parts:
- `wifi` (lines 120-187): network bootstrap — scan access points, build a
  mixed client plus access-point configuration, query the combined status,
  and gate success on a zero-loss ping of the gateway;
- `main` (lines 29-46): run the bootstrap, store the handle, and create the
  smart-outlet task (which performs accessory registration);
- the `GPIO` guard (lines 25-27, 56-57): a spin lock holding the optional
  output-pin handle, bound once inside the task by plain assignment;
- `outlet_write` (lines 95-118): the HAP write callback — it reads the
  boolean of the first delivered write request, locks the guard, unwraps the
  handle and drives the pin, then returns the fixed success code.

Machine integers that matter here (probe counts, channels, the status code)
never approach overflow in the source, so they are modelled as Nat and Int.
Fallible paths (the two bail sites, the unwrap inside the callback) are
modelled with Except. Driver-side failures of scan, set_configuration and
ping (the question-mark propagation of collaborator errors) are outside
every claim and are not modelled: the environment supplies their successful
results.
-/

namespace SmartOutlet

/-- Line 17: the target network name. -/
def SSID : String := "ssid"

/-- Line 18: the network credential. -/
def PASS : String := "password"

/-- One entry of the scan result (line 129); the program reads only the
name and the channel of an access point. -/
structure ApInfo where
  ssid : String
  channel : Nat
deriving Repr, DecidableEq

/-- The client role of the configuration built at lines 148-153; only the
fields the program sets are modelled. -/
structure ClientConfiguration where
  ssid : String
  password : String
  channel : Option Nat
deriving Repr, DecidableEq

/-- The locally hosted access-point role built at lines 154-158. -/
structure AccessPointConfiguration where
  ssid : String
  channel : Nat
deriving Repr, DecidableEq

/-- The dual-role configuration handed to the driver at line 147. -/
inductive Configuration where
  | Mixed (client : ClientConfiguration) (ap : AccessPointConfiguration)
deriving Repr, DecidableEq

def Configuration.client : Configuration → ClientConfiguration
  | .Mixed c _ => c

def Configuration.ap : Configuration → AccessPointConfiguration
  | .Mixed _ a => a

/-- The subnet of the assigned address; the program reads only the gateway
(lines 173, 177). The address is an opaque numeric identifier here. -/
structure Subnet where
  gateway : Nat
deriving Repr, DecidableEq

/-- The settings carried by a completed client address assignment. -/
structure IpSettings where
  subnet : Subnet
deriving Repr, DecidableEq

inductive ClientIpStatus where
  | Done (ip_settings : IpSettings)
  | Waiting
deriving Repr, DecidableEq

inductive ClientConnectionStatus where
  | Connected (s : ClientIpStatus)
  | Disconnected
deriving Repr, DecidableEq

inductive ClientStatus where
  | Started (s : ClientConnectionStatus)
  | Stopped
deriving Repr, DecidableEq

inductive ApIpStatus where
  | Done
  | Waiting
deriving Repr, DecidableEq

inductive ApStatus where
  | Started (s : ApIpStatus)
  | Stopped
deriving Repr, DecidableEq

/-- The combined status of the client role and the local access-point role
returned at line 163. -/
structure Status where
  client : ClientStatus
  ap : ApStatus
deriving Repr, DecidableEq

/-- The result of the gateway ping at lines 172-173; the program reads only
the transmitted and received counts. -/
structure PingSummary where
  transmitted : Nat
  received : Nat
deriving Repr, DecidableEq

/-- The two bail sites of `wifi`: line 175 (packet loss while pinging the
gateway) and line 183 (a combined status that does not match the expected
fully connected shape). -/
inductive BootstrapError where
  | Unreachable (gateway : Nat)
  | UnexpectedStatus (status : Status)
deriving Repr, DecidableEq

/-- The collaborator inputs consumed by one run of `wifi`: the scan result
(line 129), the combined status (line 163) and the ping outcome for a given
gateway (line 173). -/
structure WifiEnv where
  ap_infos : List ApInfo
  status : Status
  ping : Nat → PingSummary

/-- The live network handle returned on success; it carries the
configuration that was applied to the driver at line 147. -/
structure EspWifi where
  configuration : Configuration
deriving Repr, DecidableEq

/-- Lines 131-145: the first scan entry whose name equals `SSID` supplies
the channel; otherwise the channel is unknown. -/
def scanChannel (ap_infos : List ApInfo) : Option Nat :=
  (ap_infos.find? (fun a => a.ssid == SSID)).map (fun a => a.channel)

/-- Lines 147-159: the mixed configuration — the client role on the
discovered (or unknown) channel, the local access-point role named
"aptest" on the discovered channel, defaulting to 1. -/
def wifiConfiguration (ap_infos : List ApInfo) : Configuration :=
  let channel := scanChannel ap_infos
  Configuration.Mixed
    { ssid := SSID, password := PASS, channel := channel }
    { ssid := "aptest", channel := channel.getD 1 }

/-- The pattern of the if-let at lines 165-168: the client role started,
connected and address-assigned, and the access-point role started and done.
Returns the assigned settings when the status matches, none otherwise. -/
def connectedIp : Status → Option IpSettings
  | ⟨ClientStatus.Started (ClientConnectionStatus.Connected
      (ClientIpStatus.Done ip_settings)), ApStatus.Started ApIpStatus.Done⟩ =>
    some ip_settings
  | _ => none

/-- Lines 120-187: the bootstrap. Scan feeds the configuration, the
configuration is applied, then the status is matched; on the connected
shape the gateway is pinged and any loss is fatal, on any other shape the
status itself is fatal. -/
def wifi (env : WifiEnv) : Except BootstrapError EspWifi :=
  let cfg := wifiConfiguration env.ap_infos
  match connectedIp env.status with
  | some ip_settings =>
    let ping_summary := env.ping ip_settings.subnet.gateway
    if ping_summary.transmitted ≠ ping_summary.received then
      Except.error (BootstrapError.Unreachable ip_settings.subnet.gateway)
    else
      Except.ok { configuration := cfg }
  | none => Except.error (BootstrapError.UnexpectedStatus env.status)

/-- The externally visible effects of a successful `main` (lines 29-46):
the wifi handle is stored in the `WIFI` static and the smart-outlet task —
the task that performs accessory registration — is created. -/
structure MainEffects where
  wifiStored : Bool
  outletTaskCreated : Bool
deriving Repr, DecidableEq

/-- Lines 29-46: `main` runs the bootstrap; the question mark at line 32
propagates any bootstrap error before the `WIFI` store and before
`task::Task::create` spawns the registration task. -/
def main (env : WifiEnv) : Except BootstrapError MainEffects :=
  match wifi env with
  | Except.error e => Except.error e
  | Except.ok _ => Except.ok { wifiStored := true, outletTaskCreated := true }

/-- Line 117: the fixed status code the write callback returns. -/
def HAP_SUCCESS_ : Int := 0

/-- The value carried by a write request; the callback reads only the
boolean interpretation at line 105. -/
structure HapVal where
  b : Bool
deriving Repr, DecidableEq

/-- One element of the write-request array delivered to the callback. -/
structure HapWriteData where
  val : HapVal
deriving Repr, DecidableEq

/-- The ways the write path can crash: the unwrap of the guard content at
lines 107 and 112 when no handle is bound, and the dereference of the
request pointer at line 105 when no readable request was delivered. -/
inductive Panic where
  | unwrapNone
  | invalidRead
deriving Repr, DecidableEq

/-- The guard state held by the `GPIO` spin lock (lines 25-27): none before
a handle is bound, afterwards the output level the handle was last driven
to (true for high, false for low). -/
def GpioState : Type := Option Bool
deriving DecidableEq

/-- Line 57: the bind site — the closure run under the lock assigns the
fresh handle into the guard unconditionally. `switch` is the handle with
its current output level (false after `set_low` at line 54). -/
def bind (val : Option Bool) (switch : Bool) : Option Bool :=
  some switch

/-- The locked region shared by both branches of the callback (lines
106-109 and 111-114): unwrap the bound handle — a panic when none is
bound — and drive the pin to the given level. -/
def actuator_set (gpio : Option Bool) (value : Bool) :
    Except Panic (Option Bool) :=
  match gpio with
  | none => Except.error Panic.unwrapNone
  | some _ => Except.ok (some value)

/-- The last committed output level, none while unbound. This is the `get`
observation of the guard: the lock-protected content read back. -/
def actuator_get (gpio : Option Bool) : Option Bool := gpio

/-- Lines 95-118: the write callback. It reads the boolean of the first
delivered request — the count argument and the two opaque context pointers
are never consulted — then performs the locked mutation of the guard and
returns the fixed success code. The result pairs the guard state after the
call with the returned status code. -/
def outlet_write (write_data : List HapWriteData) (count : Int)
    (serv_priv : Unit) (write_priv : Unit) (gpio : Option Bool) :
    Except Panic (Option Bool × Int) :=
  match write_data with
  | [] => Except.error Panic.invalidRead
  | d :: _ =>
    if d.val.b = true then
      match actuator_set gpio true with
      | Except.error e => Except.error e
      | Except.ok g => Except.ok (g, HAP_SUCCESS_)
    else
      match actuator_set gpio false with
      | Except.error e => Except.error e
      | Except.ok g => Except.ok (g, HAP_SUCCESS_)

/-- A lock-ordered sequence of guard mutations: each element of the list is
applied through `actuator_set` in order, stopping at the first panic. -/
def runSets (gpio : Option Bool) : List Bool → Except Panic (Option Bool)
  | [] => Except.ok gpio
  | v :: vs =>
    match actuator_set gpio v with
    | Except.error e => Except.error e
    | Except.ok g => runSets g vs

/-- The sequence of guard states a reader holding the lock can observe
while the mutations of `runSets` happen: the state before each mutation
and the state after the last one. -/
def runTrace (gpio : Option Bool) : List Bool → List (Option Bool)
  | [] => [gpio]
  | v :: vs =>
    match actuator_set gpio v with
    | Except.error _ => [gpio]
    | Except.ok g => gpio :: runTrace g vs

/-! ## Claims about the bootstrap -/

/-- Claim C1: once the status has matched the fully connected shape — so
the verification step runs and yields a probe outcome — bootstrap succeeds
exactly when the transmitted count equals the received count, and any loss
makes it return the Unreachable error instead of the network handle. -/
theorem reachability_gate (env : WifiEnv) (ip_settings : IpSettings)
    (h : connectedIp env.status = some ip_settings) :
    ((∃ w, wifi env = Except.ok w) ↔
      (env.ping ip_settings.subnet.gateway).transmitted =
        (env.ping ip_settings.subnet.gateway).received) ∧
    ((env.ping ip_settings.subnet.gateway).transmitted ≠
        (env.ping ip_settings.subnet.gateway).received →
      wifi env =
        Except.error (BootstrapError.Unreachable ip_settings.subnet.gateway)) := by
  by_cases hp : (env.ping ip_settings.subnet.gateway).transmitted =
      (env.ping ip_settings.subnet.gateway).received
  · refine ⟨⟨fun _ => hp, fun _ => ?_⟩, fun hne => absurd hp hne⟩
    exact ⟨{ configuration := wifiConfiguration env.ap_infos }, by
      simp [wifi, h, hp]⟩
  · refine ⟨⟨fun ⟨w, hw⟩ => ?_, fun heq => absurd heq hp⟩, fun _ => by
      simp [wifi, h, hp]⟩
    rw [show wifi env =
        Except.error (BootstrapError.Unreachable ip_settings.subnet.gateway) by
      simp [wifi, h, hp]] at hw
    exact absurd hw (by simp)

/-- Witness for C1 at a concrete environment: connected status with gateway
7, probe outcome 4 transmitted and 3 received, so bootstrap returns the
Unreachable error. -/
theorem reachability_gate_witness :
    wifi { ap_infos := [],
           status := ⟨ClientStatus.Started (ClientConnectionStatus.Connected
             (ClientIpStatus.Done ⟨⟨7⟩⟩)), ApStatus.Started ApIpStatus.Done⟩,
           ping := fun _ => ⟨4, 3⟩ } =
      Except.error (BootstrapError.Unreachable 7) :=
  (reachability_gate
    { ap_infos := [],
      status := ⟨ClientStatus.Started (ClientConnectionStatus.Connected
        (ClientIpStatus.Done ⟨⟨7⟩⟩)), ApStatus.Started ApIpStatus.Done⟩,
      ping := fun _ => ⟨4, 3⟩ } ⟨⟨7⟩⟩ rfl).2 (by decide)

/-- Claim C2: when some scan entry carries the target name, the client role
of the configuration is set to the channel of the entry the scan finds for
that name; when no entry carries it, the client channel stays unknown and
the access-point role defaults to channel 1. -/
theorem bootstrap_determinism (ap_infos : List ApInfo) :
    ((∃ a ∈ ap_infos, a.ssid = SSID) →
      ∃ a ∈ ap_infos, a.ssid = SSID ∧
        (wifiConfiguration ap_infos).client.channel = some a.channel) ∧
    ((∀ a ∈ ap_infos, a.ssid ≠ SSID) →
      (wifiConfiguration ap_infos).client.channel = none ∧
      (wifiConfiguration ap_infos).ap.channel = 1) := by
  constructor
  · rintro ⟨a, ha, hs⟩
    have hsome : (ap_infos.find? (fun a => a.ssid == SSID)).isSome := by
      rw [List.find?_isSome]
      exact ⟨a, ha, by simp [hs]⟩
    obtain ⟨b, hb⟩ := Option.isSome_iff_exists.mp hsome
    refine ⟨b, List.mem_of_find?_eq_some hb, ?_, ?_⟩
    · simpa using List.find?_some hb
    · simp [wifiConfiguration, scanChannel, hb, Configuration.client]
  · intro habs
    have hnone : ap_infos.find? (fun a => a.ssid == SSID) = none := by
      rw [List.find?_eq_none]
      intro a ha
      simp [habs a ha]
    simp [wifiConfiguration, scanChannel, hnone, Configuration.client,
      Configuration.ap]

/-- Witness for C2: a scan carrying the target on channel 6 puts the client
role on channel 6; an empty scan leaves the client channel unknown and the
access-point role on channel 1. -/
theorem bootstrap_determinism_witness :
    (∃ a ∈ ([⟨"ssid", 6⟩] : List ApInfo), a.ssid = SSID ∧
      (wifiConfiguration [⟨"ssid", 6⟩]).client.channel = some a.channel) ∧
    (wifiConfiguration []).client.channel = none ∧
    (wifiConfiguration []).ap.channel = 1 :=
  ⟨(bootstrap_determinism [⟨"ssid", 6⟩]).1 ⟨⟨"ssid", 6⟩, by simp, by decide⟩,
   (bootstrap_determinism []).2 (by intro a ha; simp at ha)⟩

/-- Claim C6: when the combined status does not match the fully connected
shape, bootstrap returns the UnexpectedStatus error, `main` propagates that
error, and `main` never reaches the point that creates the registration
task — accessory registration is never performed. -/
theorem unexpected_status_fatal (env : WifiEnv)
    (h : connectedIp env.status = none) :
    wifi env = Except.error (BootstrapError.UnexpectedStatus env.status) ∧
    main env = Except.error (BootstrapError.UnexpectedStatus env.status) ∧
    ∀ eff : MainEffects, main env ≠ Except.ok eff := by
  have hw : wifi env =
      Except.error (BootstrapError.UnexpectedStatus env.status) := by
    simp [wifi, h]
  refine ⟨hw, ?_, ?_⟩
  · simp [main, hw]
  · intro eff heff
    rw [show main env =
        Except.error (BootstrapError.UnexpectedStatus env.status) by
      simp [main, hw]] at heff
    exact absurd heff (by simp)

/-- Witness for C6 at a concrete environment whose client role is stopped:
bootstrap and `main` both return the UnexpectedStatus error and `main`
creates no task. -/
theorem unexpected_status_fatal_witness :
    wifi { ap_infos := [⟨"ssid", 6⟩],
           status := ⟨ClientStatus.Stopped, ApStatus.Stopped⟩,
           ping := fun _ => ⟨4, 4⟩ } =
      Except.error (BootstrapError.UnexpectedStatus
        ⟨ClientStatus.Stopped, ApStatus.Stopped⟩) ∧
    main { ap_infos := [⟨"ssid", 6⟩],
           status := ⟨ClientStatus.Stopped, ApStatus.Stopped⟩,
           ping := fun _ => ⟨4, 4⟩ } =
      Except.error (BootstrapError.UnexpectedStatus
        ⟨ClientStatus.Stopped, ApStatus.Stopped⟩) ∧
    ∀ eff : MainEffects,
      main { ap_infos := [⟨"ssid", 6⟩],
             status := ⟨ClientStatus.Stopped, ApStatus.Stopped⟩,
             ping := fun _ => ⟨4, 4⟩ } ≠ Except.ok eff :=
  unexpected_status_fatal
    { ap_infos := [⟨"ssid", 6⟩],
      status := ⟨ClientStatus.Stopped, ApStatus.Stopped⟩,
      ping := fun _ => ⟨4, 4⟩ } rfl

/-- Claim C7: a scan in which no entry matches the target name is not
fatal — the bootstrap still builds the configuration with an unknown client
channel, and with a connected status and a clean probe outcome it succeeds
with exactly that configuration. -/
theorem scan_miss_not_fatal (env : WifiEnv)
    (habs : ∀ a ∈ env.ap_infos, a.ssid ≠ SSID)
    (ip_settings : IpSettings)
    (hst : connectedIp env.status = some ip_settings)
    (hping : (env.ping ip_settings.subnet.gateway).transmitted =
      (env.ping ip_settings.subnet.gateway).received) :
    wifi env = Except.ok { configuration := wifiConfiguration env.ap_infos } ∧
    (wifiConfiguration env.ap_infos).client.channel = none := by
  refine ⟨by simp [wifi, hst, hping], ?_⟩
  exact ((bootstrap_determinism env.ap_infos).2 habs).1

/-- Witness for C7: a scan listing only a foreign network, a connected
status with gateway 9 and a probe outcome of 4 out of 4 — bootstrap
succeeds with an unknown client channel. -/
theorem scan_miss_not_fatal_witness :
    wifi { ap_infos := [⟨"other", 3⟩],
           status := ⟨ClientStatus.Started (ClientConnectionStatus.Connected
             (ClientIpStatus.Done ⟨⟨9⟩⟩)), ApStatus.Started ApIpStatus.Done⟩,
           ping := fun _ => ⟨4, 4⟩ } =
      Except.ok { configuration := wifiConfiguration [⟨"other", 3⟩] } ∧
    (wifiConfiguration [⟨"other", 3⟩]).client.channel = none :=
  scan_miss_not_fatal
    { ap_infos := [⟨"other", 3⟩],
      status := ⟨ClientStatus.Started (ClientConnectionStatus.Connected
        (ClientIpStatus.Done ⟨⟨9⟩⟩)), ApStatus.Started ApIpStatus.Done⟩,
      ping := fun _ => ⟨4, 4⟩ }
    (by intro a ha; simp at ha; simp [ha, SSID]) ⟨⟨9⟩⟩ rfl rfl

/-! ## Claims about the actuator guard and the write callback -/

/-- Claim C3: with the guard bound — as it always is when the callback can
fire, since the handle is bound at line 57 before the callback is installed
at line 79 — every delivered write command makes the callback return the
success code, and the guard afterwards reads back exactly the command
boolean: `some true` after a true command, `some false` after false. -/
theorem write_handler_status (d : HapWriteData) (rest : List HapWriteData)
    (count : Int) (sp wp : Unit) (b0 : Bool) :
    ∃ g, outlet_write (d :: rest) count sp wp (some b0) =
        Except.ok (g, HAP_SUCCESS_) ∧
      actuator_get g = some d.val.b := by
  refine ⟨some d.val.b, ?_, rfl⟩
  cases hb : d.val.b with
  | true => simp [outlet_write, actuator_set, hb]
  | false => simp [outlet_write, actuator_set, hb]

/-- Counterexample to claim C4: the concrete write command true delivered
before any handle is bound makes the callback panic on the unwrap of the
empty guard — the write path crashes rather than silently no-opping. -/
theorem unbound_noop_counterexample :
    outlet_write [⟨⟨true⟩⟩] 1 () () none = Except.error Panic.unwrapNone :=
  rfl

/-- Claim C4 as amended: every write command delivered before a handle is
bound makes the callback panic on the unwrap of the empty guard; no state
is mutated and no status is returned because the write path crashes. -/
theorem unbound_write_panics (d : HapWriteData) (rest : List HapWriteData)
    (count : Int) (sp wp : Unit) :
    outlet_write (d :: rest) count sp wp none =
      Except.error Panic.unwrapNone := by
  cases hb : d.val.b <;> simp [outlet_write, actuator_set, hb]

/-- Counterexample to claim C5: the concrete delivery with count zero — a
malformed invocation announcing no valid write request — still mutates the
guard from false to true and returns the success code, not a failure. -/
theorem malformed_rejection_counterexample :
    outlet_write [⟨⟨true⟩⟩] 0 () () (some false) =
      Except.ok (some true, HAP_SUCCESS_) ∧
    (some true : Option Bool) ≠ some false :=
  ⟨rfl, by decide⟩

/-- Claim C5 as amended: the callback performs no validation and has no
failure path — whenever it returns at all, the status code it returns is
the fixed success code, whatever the delivered requests, the count or the
guard state were. -/
theorem write_handler_never_fails (write_data : List HapWriteData)
    (count : Int) (sp wp : Unit) (gpio g : Option Bool) (code : Int)
    (h : outlet_write write_data count sp wp gpio = Except.ok (g, code)) :
    code = HAP_SUCCESS_ := by
  match write_data, gpio with
  | [], _ => simp [outlet_write] at h
  | d :: rest, none =>
    rw [unbound_write_panics d rest count sp wp] at h
    exact absurd h (by simp)
  | d :: rest, some b0 =>
    cases hb : d.val.b <;>
      · simp [outlet_write, actuator_set, hb] at h
        exact h.2.symm

/-- Witness for C5 as amended: the concrete successful call returning code
zero discharges the hypothesis, and zero is the success code. -/
theorem write_handler_never_fails_witness : (0 : Int) = HAP_SUCCESS_ :=
  write_handler_never_fails [⟨⟨true⟩⟩] 1 () () (some false) (some true) 0 rfl

/-- Helper: a lock-ordered run from a bound guard never panics and ends in
the fold of the plain replace function over the values. -/
theorem runSets_bound (vs : List Bool) (b0 : Bool) :
    runSets (some b0) vs =
      Except.ok (some (vs.foldl (fun _ v => v) b0)) := by
  induction vs generalizing b0 with
  | nil => rfl
  | cons v vs ih => simpa [runSets, actuator_set] using ih v

/-- Helper: folding the replace function over a nonempty list yields its
last element. -/
theorem foldl_replace_last (vs : List Bool) (b0 : Bool) (h : vs ≠ []) :
    vs.foldl (fun _ v => v) b0 = vs.getLast h := by
  induction vs generalizing b0 with
  | nil => exact absurd rfl h
  | cons v vs ih =>
    cases vs with
    | nil => rfl
    | cons w ws =>
      rw [List.foldl_cons, ih v (by simp)]
      exact (List.getLast_cons (by simp)).symm

/-- Helper: every state in the trace of a lock-ordered run from a bound
guard is a fully committed value — the initial one or one of the written
values; nothing else is ever observable. -/
theorem runTrace_committed (vs : List Bool) (b0 : Bool) :
    ∀ s ∈ runTrace (some b0) vs, ∃ w, s = some w ∧ (w = b0 ∨ w ∈ vs) := by
  induction vs generalizing b0 with
  | nil =>
    intro s hs
    simp [runTrace] at hs
    exact ⟨b0, hs, Or.inl rfl⟩
  | cons v vs ih =>
    intro s hs
    simp only [runTrace, actuator_set, List.mem_cons] at hs
    rcases hs with hs | hs
    · exact ⟨b0, hs, Or.inl rfl⟩
    · obtain ⟨w, hw, hmem⟩ := ih v s hs
      refine ⟨w, hw, Or.inr ?_⟩
      rcases hmem with h | h
      · simp [h]
      · simp [h]

/-- Claim C8: a nonempty lock-ordered sequence of set calls starting from a
bound guard ends with the guard holding exactly the last written value, and
every state observable under the lock along the run is some fully committed
value — the initial level or one of the written values, never a torn
intermediate. -/
theorem actuator_linearizability (b0 : Bool) (vs : List Bool) (h : vs ≠ []) :
    runSets (some b0) vs = Except.ok (some (vs.getLast h)) ∧
    ∀ s ∈ runTrace (some b0) vs,
      ∃ w, s = some w ∧ (w = b0 ∨ w ∈ vs) := by
  refine ⟨?_, runTrace_committed vs b0⟩
  rw [runSets_bound vs b0, foldl_replace_last vs b0 h]

/-- Witness for C8: the concrete run false, then true, false, true ends at
`some true` and every traced state is a committed value. -/
theorem actuator_linearizability_witness :
    runSets (some false) [true, false, true] = Except.ok (some true) ∧
    ∀ s ∈ runTrace (some false) [true, false, true],
      ∃ w, s = some w ∧ (w = false ∨ w ∈ [true, false, true]) :=
  actuator_linearizability false [true, false, true] (by simp)

/-- Counterexample to claim C9: binding a second time after a handle is
already installed succeeds and silently replaces the stored handle — the
guard content changes from `some false` to `some true` with no fatal error
anywhere in the bind path. -/
theorem bind_twice_counterexample :
    bind (bind none false) true = some true ∧
    bind (bind none false) true ≠ bind none false :=
  ⟨rfl, by decide⟩

/-- Claim C9 as amended: the bind site is an unconditional assignment under
the lock — whatever the guard already holds, binding installs the new
handle, so a second bind silently replaces the first instead of being
detected as an error. -/
theorem bind_overwrites (val : Option Bool) (switch : Bool) :
    bind val switch = some switch :=
  rfl

/-- Claim C10: the callback result — guard mutation and returned status —
depends only on the boolean of the first delivered write request: the
count, the context pointers and all requests beyond the first are ignored,
and the whole call collapses to the canonical single-request delivery of
that boolean. -/
theorem write_depends_on_first_request (d : HapWriteData)
    (rest rest2 : List HapWriteData) (count count2 : Int)
    (sp sp2 wp wp2 : Unit) (gpio : Option Bool) :
    outlet_write (d :: rest) count sp wp gpio =
      outlet_write (d :: rest2) count2 sp2 wp2 gpio ∧
    outlet_write (d :: rest) count sp wp gpio =
      outlet_write [⟨⟨d.val.b⟩⟩] 1 () () gpio := by
  cases hb : d.val.b <;> simp [outlet_write, hb]

end SmartOutlet
